import Mathlib

/-!
# Verification of the DSA work-queue operation contracts

Shallow embedding of the dsa-rust work-queue layer (`src/wq.rs`,
`src/submit.rs`, `src/descriptor.rs`, `src/error.rs`).

Byte buffers are embedded as `List Nat` (each element a byte value).
The software fallback engine (`windows_impl::WorkQueue`) is pure and is
embedded directly.  The Linux hardware path runs validation and
empty-input fast paths before any descriptor is built; the hardware
interaction itself (descriptor build, submission, completion wait and
the device's memory writes) is abstracted as an explicit parameter of
the embedded function, so theorems quantifying over that parameter
capture exactly the behaviour that is decided before hardware is
touched.
-/

set_option maxRecDepth 4096

/-- Error taxonomy from `src/error.rs` (`enum DsaError`).  The payload of
`Io` (an `std::io::Error`) is dropped as it never matters to the claims;
string payloads are kept as `String`. -/
inductive DsaError where
  | NoDeviceFound
  | NoWorkQueue
  | QueueFull
  | OperationFailed (status : Nat) (result : Nat)
  | PageFault (fault_addr : Nat) (bytes_completed : Nat)
  | InvalidArgument (msg : String)
  | BufferSizeMismatch (expected : Nat) (actual : Nat)
  | Io
  | PlatformNotSupported
  | DeviceNotEnabled
  | PermissionDenied (msg : String)
  | MmapFailed (msg : String)
deriving DecidableEq, Repr

/-- Completion status codes from `src/descriptor.rs` (`enum CompletionStatus`). -/
inductive CompletionStatus where
  | Pending
  | Success
  | PageFault
  | InvalidFlags
  | UnsupportedOp
  | InvalidSize
  | InvalidCompletionAddr
  | HardwareError
  | Unknown (code : Nat)
deriving DecidableEq, Repr

/-- `impl From<u8> for CompletionStatus` (`src/descriptor.rs` lines 368-382):
the Rust `match` on the status byte literals, written as the equivalent
ladder of equality tests, with the catch-all arm mapping to `Unknown`. -/
def CompletionStatus.ofByte (status : Nat) : CompletionStatus :=
  if status = 0x00 then CompletionStatus.Pending
  else if status = 0x01 then CompletionStatus.Success
  else if status = 0x03 then CompletionStatus.PageFault
  else if status = 0x10 then CompletionStatus.InvalidFlags
  else if status = 0x11 then CompletionStatus.UnsupportedOp
  else if status = 0x13 then CompletionStatus.InvalidSize
  else if status = 0x19 then CompletionStatus.InvalidCompletionAddr
  else if status = 0x1F then CompletionStatus.HardwareError
  else CompletionStatus.Unknown status

/-- Completion record fields from `src/descriptor.rs` (`struct
DsaCompletionRecord`), the ones the driver reads.  Machine integers are
embedded as `Nat`. -/
structure DsaCompletionRecord where
  status : Nat
  result : Nat
  fault_info : Nat
  bytes_completed : Nat
  fault_addr : Nat
  result_value : Nat
  result_value2 : Nat
deriving DecidableEq, Repr

/-- The 64-byte hardware descriptor from `src/descriptor.rs`
(`struct DsaHwDesc`); addresses and sizes embedded as `Nat`. -/
structure DsaHwDesc where
  pasid : Nat
  flags_opcode : Nat
  completion_addr : Nat
  src_addr : Nat
  dst_addr : Nat
  xfer_size : Nat
  int_handle : Nat
  src2_addr : Nat
  crc_seed_or_delta_size : Nat
deriving DecidableEq, Repr

/-! ## Instruction submission (`src/submit.rs`) -/

/-- Loop body of `enqcmd_retry` (`src/submit.rs` lines 140-149).  The
device's momentary willingness to accept a descriptor is abstracted as
`device : Nat → DsaHwDesc → Bool` (attempt index, submitted descriptor);
`fuel` counts the remaining attempts and `i` the current attempt index.
Every attempt submits the same descriptor `desc`, exactly as the Rust
loop re-reads the same `desc` reference. -/
def enqGo (device : Nat → DsaHwDesc → Bool) (desc : DsaHwDesc) : Nat → Nat → Bool
  | 0, _ => false
  | fuel + 1, i => if device i desc then true else enqGo device desc fuel (i + 1)

/-- `enqcmd_retry` (`src/submit.rs` lines 140-149): retry `enqcmd` up to
`max_retries` times, returning `true` on the first accepted submission
and `false` when every attempt was rejected. -/
def enqcmd_retry (device : Nat → DsaHwDesc → Bool) (desc : DsaHwDesc)
    (max_retries : Nat) : Bool :=
  enqGo device desc max_retries 0

/-- Work queue type from `src/wq.rs` (`enum WorkQueueType`). -/
inductive WorkQueueType where
  | Dedicated
  | Shared
deriving DecidableEq, Repr

/-- `linux_impl::WorkQueue::submit` (`src/wq.rs` lines 184-198):
Dedicated queues use MOVDIR64B (posted, always accepted); Shared queues
use `enqcmd_retry` and surface `QueueFull` when the retries are
exhausted. -/
def wq_submit (wq_type : WorkQueueType) (device : Nat → DsaHwDesc → Bool)
    (desc : DsaHwDesc) (max_retries : Nat) : Except DsaError Unit :=
  match wq_type with
  | WorkQueueType.Dedicated => Except.ok ()
  | WorkQueueType.Shared =>
      if enqcmd_retry device desc max_retries then Except.ok ()
      else Except.error DsaError.QueueFull

/-! ## Completion waiter (`src/wq.rs` lines 201-225) -/

/-- Terminal classification inside `wait_for_completion` (`src/wq.rs`
lines 204-215): the `match` on `record.get_status()`, taken when
`is_complete()` has observed a nonzero status byte. -/
def classifyRecord (r : DsaCompletionRecord) : Except DsaError Unit :=
  match CompletionStatus.ofByte r.status with
  | CompletionStatus.Success => Except.ok ()
  | CompletionStatus.PageFault =>
      Except.error (DsaError.PageFault r.fault_addr r.bytes_completed)
  | _ => Except.error (DsaError.OperationFailed r.status r.result)

/-- Loop body of `wait_for_completion` (`src/wq.rs` lines 202-218).  The
completion record is written asynchronously by the device; `obs i` is
the record's contents as observed by the volatile read of poll iteration
`i`.  `fuel` counts the remaining spin iterations. -/
def waitGo (obs : Nat → DsaCompletionRecord) : Nat → Nat → Except DsaError Unit
  | 0, _ => Except.error (DsaError.OperationFailed 0 0)
  | fuel + 1, i =>
      if (obs i).status ≠ 0 then classifyRecord (obs i)
      else waitGo obs fuel (i + 1)

/-- `linux_impl::WorkQueue::wait_for_completion` (`src/wq.rs` lines
201-225): poll the status byte for at most `spin_iterations` iterations,
classify a nonzero status, and report `OperationFailed {status: 0,
result: 0}` when the loop exhausts with the byte still zero. -/
def wait_for_completion (obs : Nat → DsaCompletionRecord)
    (spin_iterations : Nat) : Except DsaError Unit :=
  waitGo obs spin_iterations 0

/-! ## CRC32 (semantics of the `crc32fast` dependency)

`windows_impl::WorkQueue::crc32` delegates to
`crc32fast::Hasher::new_with_initial(seed)`, an external crate computing
the standard reflected IEEE CRC-32 (polynomial 0xEDB88320) with the
conventional pre- and post-inversion, the stored state being the
finalized CRC of the data consumed so far.  That standard algorithm is
embedded here. -/

/-- One bit round of the reflected CRC-32 division (polynomial
0xEDB88320). -/
def crcBitStep (c : Nat) : Nat :=
  if c % 2 = 1 then (c / 2) ^^^ 0xEDB88320 else c / 2

/-- CRC-32 table entry for byte `b`: eight bit rounds. -/
def crcTableEntry (b : Nat) : Nat :=
  crcBitStep (crcBitStep (crcBitStep (crcBitStep
    (crcBitStep (crcBitStep (crcBitStep (crcBitStep b)))))))

/-- One byte step of the running (inverted) CRC-32 state. -/
def crcStep (crc b : Nat) : Nat :=
  (crc / 256) ^^^ crcTableEntry ((crc ^^^ b) % 256)

/-- Seeded CRC-32 over a byte list: `crc32fast` with
`new_with_initial(state)`, `update(data)`, `finalize()`. -/
def crc32_update (state : Nat) (data : List Nat) : Nat :=
  (data.foldl crcStep (state ^^^ 0xFFFFFFFF)) ^^^ 0xFFFFFFFF

/-! ## Software fallback engine (`src/wq.rs`, `windows_impl`) -/

/-- `windows_impl::WorkQueue::crc32` (`src/wq.rs` lines 371-379): empty
input short-circuits to the seed, otherwise the seeded CRC-32 of the
data. -/
def sw_crc32 (data : List Nat) (seed : Nat) : Except DsaError Nat :=
  if data.isEmpty then Except.ok seed
  else Except.ok (crc32_update seed data)

/-- `windows_impl::WorkQueue::memcpy` (`src/wq.rs` lines 382-396).  The
in-place mutation `dst[..src.len()].copy_from_slice(src)` is embedded as
returning the new contents of `dst`: its first `src.length` bytes become
`src`, the rest are untouched. -/
def sw_memcpy (dst src : List Nat) : Except DsaError (List Nat) :=
  if dst.length < src.length then
    Except.error (DsaError.BufferSizeMismatch src.length dst.length)
  else if src.isEmpty then Except.ok dst
  else Except.ok (src ++ dst.drop src.length)

/-- The little-endian byte decomposition of a 64-bit pattern:
`pattern.to_le_bytes()` in `windows_impl::WorkQueue::memset`. -/
def u64ToLeBytes (p : Nat) : List Nat :=
  [p % 256, p / 2 ^ 8 % 256, p / 2 ^ 16 % 256, p / 2 ^ 24 % 256,
   p / 2 ^ 32 % 256, p / 2 ^ 40 % 256, p / 2 ^ 48 % 256, p / 2 ^ 56 % 256]

/-- `windows_impl::WorkQueue::memset` (`src/wq.rs` lines 399-419).  The
`chunks_exact_mut(8)` loop overwrites each of the `dst.length / 8` full
8-byte chunks with the pattern bytes, and the remainder branch
overwrites the final `dst.length % 8` bytes with the leading pattern
bytes; the resulting contents of `dst` are returned. -/
def sw_memset (dst : List Nat) (pattern : Nat) : Except DsaError (List Nat) :=
  if dst.isEmpty then Except.ok dst
  else
    Except.ok ((List.replicate (dst.length / 8) (u64ToLeBytes pattern)).flatten
      ++ (u64ToLeBytes pattern).take (dst.length % 8))

/-- `windows_impl::WorkQueue::memcmp` (`src/wq.rs` lines 422-431). -/
def sw_memcmp (a b : List Nat) : Except DsaError Bool :=
  if a.length ≠ b.length then
    Except.error (DsaError.BufferSizeMismatch a.length b.length)
  else Except.ok (a == b)

/-- `windows_impl::WorkQueue::noop` (`src/wq.rs` lines 434-436). -/
def sw_noop : Except DsaError Unit :=
  Except.ok ()

/-! ## Linux hardware path (`src/wq.rs`, `linux_impl`)

Each public operation validates sizes and handles empty input before any
descriptor is built; everything after that point (descriptor build,
submit, wait, result extraction, and the device's writes) is abstracted
as the explicit parameter `hw`. -/

/-- `linux_impl::WorkQueue::crc32` (`src/wq.rs` lines 228-240) with the
hardware interaction abstracted as `hw`. -/
def linux_crc32 (hw : Except DsaError Nat) (data : List Nat) (seed : Nat) :
    Except DsaError Nat :=
  if data.isEmpty then Except.ok seed
  else hw

/-- `linux_impl::WorkQueue::memcpy` (`src/wq.rs` lines 243-261) with the
hardware interaction (including the device's write into `dst`)
abstracted as `hw`. -/
def linux_memcpy (hw : Except DsaError (List Nat)) (dst src : List Nat) :
    Except DsaError (List Nat) :=
  if dst.length < src.length then
    Except.error (DsaError.BufferSizeMismatch src.length dst.length)
  else if src.isEmpty then Except.ok dst
  else hw

/-- `linux_impl::WorkQueue::memcmp` (`src/wq.rs` lines 277-296) with the
hardware interaction abstracted as `hw`. -/
def linux_memcmp (hw : Except DsaError Bool) (a b : List Nat) :
    Except DsaError Bool :=
  if a.length ≠ b.length then
    Except.error (DsaError.BufferSizeMismatch a.length b.length)
  else if a.isEmpty then Except.ok true
  else hw

/-! ## Specification-side definitions (for refinement comparison) -/

/-- Restatement of the `fill` postcondition from the specification:
`dst` equals the pattern's little-endian byte representation repeated to
`len(dst)`, truncated on the final partial repetition. -/
def fillSpec (n : Nat) (pattern : Nat) : List Nat :=
  ((List.replicate ((n + 7) / 8) (u64ToLeBytes pattern)).flatten).take n

/-! ## Helper lemmas -/

theorem xor_xor_cancel (x k : Nat) : (x ^^^ k) ^^^ k = x := by
  rw [Nat.xor_assoc, Nat.xor_self, Nat.xor_zero]

theorem crc32_update_nil (s : Nat) : crc32_update s [] = s := by
  unfold crc32_update
  simp only [List.foldl_nil]
  exact xor_xor_cancel s 0xFFFFFFFF

theorem crc32_update_append (s : Nat) (a b : List Nat) :
    crc32_update s (a ++ b) = crc32_update (crc32_update s a) b := by
  unfold crc32_update
  rw [List.foldl_append, xor_xor_cancel]

theorem u64ToLeBytes_length (p : Nat) : (u64ToLeBytes p).length = 8 := rfl

theorem flatten_replicate_length (k : Nat) (l : List Nat) :
    ((List.replicate k l).flatten).length = k * l.length := by
  induction k with
  | zero => simp
  | succ m ih =>
      simp only [List.replicate_succ, List.flatten_cons, List.length_append, ih]
      ring

/-! ## Claim theorems -/

/-- Claim C9: for every seed and both execution paths (hardware work
queue and software fallback), crc32 of the empty buffer returns
`Ok(seed)`; on the Linux path the result is independent of the hardware
interaction `hw`, so nothing is submitted. -/
theorem crc32_empty_returns_seed (seed : Nat) :
    sw_crc32 [] seed = Except.ok seed ∧
    ∀ hw, linux_crc32 hw [] seed = Except.ok seed :=
  ⟨rfl, fun _ => rfl⟩

/-- Claim C4: the software engine's checksum composes like a standard
seeded CRC: for every buffer `b` and split point `i`, crc32 of the whole
buffer with seed 0 equals crc32 of the suffix seeded with the crc32 of
the prefix. -/
theorem crc32_seed_compose (b : List Nat) (i s : Nat)
    (h : sw_crc32 (List.take i b) 0 = Except.ok s) :
    sw_crc32 b 0 = sw_crc32 (List.drop i b) s := by
  have hs : s = crc32_update 0 (List.take i b) := by
    unfold sw_crc32 at h
    by_cases he : (List.take i b).isEmpty
    · rw [if_pos he] at h
      cases h
      rw [List.isEmpty_iff] at he
      rw [he, crc32_update_nil]
    · rw [if_neg he] at h
      cases h
      rfl
  subst hs
  unfold sw_crc32
  by_cases hb : b.isEmpty
  · rw [List.isEmpty_iff] at hb
    subst hb
    simp [crc32_update_nil]
  · rw [if_neg hb]
    by_cases hd : (List.drop i b).isEmpty
    · rw [if_pos hd]
      rw [List.isEmpty_iff] at hd
      have htake : List.take i b = b := by
        have hsplit := List.take_append_drop i b
        rw [hd, List.append_nil] at hsplit
        exact hsplit
      rw [htake]
    · rw [if_neg hd]
      rw [← crc32_update_append, List.take_append_drop]

/-- Witness for C4 at `b = [1, 2, 3]`, `i = 1`. -/
theorem crc32_seed_compose_witness :
    sw_crc32 [1, 2, 3] 0 = sw_crc32 (List.drop 1 [1, 2, 3]) (crc32_update 0 [1]) :=
  crc32_seed_compose [1, 2, 3] 1 (crc32_update 0 [1]) rfl

/-- Claim C8: decoding a status byte into a `CompletionStatus` is total:
the eight recognized codes map to their variants and every other byte
maps to `Unknown(code)`; `ofByte` is a pure function of the status byte
alone. -/
theorem completion_status_decode_total (s : Nat) (_hbyte : s < 256) :
    CompletionStatus.ofByte 0x00 = CompletionStatus.Pending ∧
    CompletionStatus.ofByte 0x01 = CompletionStatus.Success ∧
    CompletionStatus.ofByte 0x03 = CompletionStatus.PageFault ∧
    CompletionStatus.ofByte 0x10 = CompletionStatus.InvalidFlags ∧
    CompletionStatus.ofByte 0x11 = CompletionStatus.UnsupportedOp ∧
    CompletionStatus.ofByte 0x13 = CompletionStatus.InvalidSize ∧
    CompletionStatus.ofByte 0x19 = CompletionStatus.InvalidCompletionAddr ∧
    CompletionStatus.ofByte 0x1F = CompletionStatus.HardwareError ∧
    (s ≠ 0x00 → s ≠ 0x01 → s ≠ 0x03 → s ≠ 0x10 → s ≠ 0x11 → s ≠ 0x13 →
      s ≠ 0x19 → s ≠ 0x1F → CompletionStatus.ofByte s = CompletionStatus.Unknown s) := by
  refine ⟨rfl, rfl, rfl, rfl, rfl, rfl, rfl, rfl, ?_⟩
  intro h0 h1 h3 h10 h11 h13 h19 h1f
  simp [CompletionStatus.ofByte, h0, h1, h3, h10, h11, h13, h19, h1f]

/-- Witness for C8 at the unrecognized byte `0x2A`. -/
theorem completion_status_decode_total_witness :
    CompletionStatus.ofByte 0x2A = CompletionStatus.Unknown 0x2A := by
  have h := completion_status_decode_total 0x2A (by decide)
  exact h.2.2.2.2.2.2.2.2 (by decide) (by decide) (by decide) (by decide)
    (by decide) (by decide) (by decide) (by decide)

/-- Claim C1: for `len(dst) >= len(src)` the software memcpy succeeds
and the written buffer's prefix of length `len(src)` equals `src`; for
`len(dst) < len(src)` both the software and the Linux path fail with
`BufferSizeMismatch {expected: len(src), actual: len(dst)}` before any
copy; empty `src` is a no-op success on both paths. -/
theorem memcpy_correct (dst src : List Nat) :
    (src.length ≤ dst.length →
      ∃ dst2, sw_memcpy dst src = Except.ok dst2 ∧ List.take src.length dst2 = src) ∧
    (dst.length < src.length →
      sw_memcpy dst src =
        Except.error (DsaError.BufferSizeMismatch src.length dst.length) ∧
      ∀ hw, linux_memcpy hw dst src =
        Except.error (DsaError.BufferSizeMismatch src.length dst.length)) ∧
    sw_memcpy dst [] = Except.ok dst ∧
    ∀ hw, linux_memcpy hw dst [] = Except.ok dst := by
  refine ⟨?_, ?_, ?_, ?_⟩
  · intro hle
    unfold sw_memcpy
    rw [if_neg (by omega)]
    by_cases he : src.isEmpty
    · rw [if_pos he]
      rw [List.isEmpty_iff] at he
      exact ⟨dst, rfl, by simp [he]⟩
    · rw [if_neg he]
      exact ⟨src ++ List.drop src.length dst, rfl, List.take_left src _⟩
  · intro hlt
    constructor
    · unfold sw_memcpy
      rw [if_pos hlt]
    · intro hw
      unfold linux_memcpy
      rw [if_pos hlt]
  · simp [sw_memcpy]
  · intro hw
    simp [linux_memcpy]

/-- Witness for C1 at `dst = [9, 9, 9]`, `src = [1, 2]` and at the
mismatching pair `dst = [9]`, `src = [1, 2]`. -/
theorem memcpy_correct_witness :
    (∃ dst2, sw_memcpy [9, 9, 9] [1, 2] = Except.ok dst2 ∧
      List.take 2 dst2 = [1, 2]) ∧
    sw_memcpy [9] [1, 2] = Except.error (DsaError.BufferSizeMismatch 2 1) := by
  constructor
  · exact (memcpy_correct [9, 9, 9] [1, 2]).1 (by decide)
  · exact ((memcpy_correct [9] [1, 2]).2.1 (by decide)).1

/-- Claim C10 (frame property): a successful software memcpy only
writes the prefix of length `len(src)`: every byte of `dst` at an index
at or beyond `len(src)` is unchanged, and the length of `dst` is
unchanged. -/
theorem memcpy_frame (dst src dst2 : List Nat) (hle : src.length ≤ dst.length)
    (h : sw_memcpy dst src = Except.ok dst2) :
    List.drop src.length dst2 = List.drop src.length dst ∧
    dst2.length = dst.length := by
  unfold sw_memcpy at h
  rw [if_neg (by omega)] at h
  by_cases he : src.isEmpty
  · rw [if_pos he] at h
    cases h
    exact ⟨rfl, rfl⟩
  · rw [if_neg he] at h
    cases h
    refine ⟨List.drop_left src _, ?_⟩
    simp only [List.length_append, List.length_drop]
    omega

/-- Witness for C10 at `dst = [9, 9, 9]`, `src = [1, 2]`. -/
theorem memcpy_frame_witness :
    List.drop 2 [1, 2, 9] = List.drop 2 [9, 9, 9] ∧
    ([1, 2, 9] : List Nat).length = ([9, 9, 9] : List Nat).length :=
  memcpy_frame [9, 9, 9] [1, 2] [1, 2, 9] (by decide) rfl

/-- Claim C2: for equal lengths, memcmp returns `Ok(a == b)` and that
boolean is `true` exactly when the buffers are equal byte-for-byte; for
different lengths both paths fail with `BufferSizeMismatch {expected:
len(a), actual: len(b)}`; two empty buffers compare equal on both paths,
on the Linux path independently of any hardware interaction. -/
theorem memcmp_correct (a b : List Nat) :
    (a.length = b.length →
      sw_memcmp a b = Except.ok (a == b) ∧ ((a == b) = true ↔ a = b)) ∧
    (a.length ≠ b.length →
      sw_memcmp a b =
        Except.error (DsaError.BufferSizeMismatch a.length b.length) ∧
      ∀ hw, linux_memcmp hw a b =
        Except.error (DsaError.BufferSizeMismatch a.length b.length)) ∧
    sw_memcmp [] [] = Except.ok true ∧
    ∀ hw, linux_memcmp hw [] [] = Except.ok true := by
  refine ⟨?_, ?_, rfl, fun _ => rfl⟩
  · intro hlen
    constructor
    · unfold sw_memcmp
      rw [if_neg (by omega)]
    · exact beq_iff_eq
  · intro hne
    constructor
    · unfold sw_memcmp
      rw [if_pos hne]
    · intro hw
      unfold linux_memcmp
      rw [if_pos hne]

/-- Witness for C2 at `a = [1, 2]`, `b = [1, 2]` and at the mismatching
pair `a = [1]`, `b = [1, 2]`. -/
theorem memcmp_correct_witness :
    sw_memcmp [1, 2] [1, 2] = Except.ok ([1, 2] == [1, 2]) ∧
    sw_memcmp [1] [1, 2] = Except.error (DsaError.BufferSizeMismatch 1 2) := by
  constructor
  · exact ((memcmp_correct [1, 2] [1, 2]).1 rfl).1
  · exact ((memcmp_correct [1] [1, 2]).2.1 (by decide)).1

/-- Claim C6: every software fallback operation returns either success
or `BufferSizeMismatch`: crc32, memset and noop always succeed, and the
only errors of memcpy and memcmp are the `BufferSizeMismatch` values
with the same fields and under the same conditions as the Linux hardware
path, which behaves identically whenever those guards fire; in
particular the software engine never returns `PageFault`, `QueueFull` or
`OperationFailed`. -/
theorem software_engine_error_range :
    (∀ data seed, ∃ c, sw_crc32 data seed = Except.ok c) ∧
    (∀ dst p, ∃ out, sw_memset dst p = Except.ok out) ∧
    sw_noop = Except.ok () ∧
    (∀ dst src e, sw_memcpy dst src = Except.error e →
      e = DsaError.BufferSizeMismatch src.length dst.length ∧
      dst.length < src.length) ∧
    (∀ a b e, sw_memcmp a b = Except.error e →
      e = DsaError.BufferSizeMismatch a.length b.length ∧
      a.length ≠ b.length) ∧
    (∀ hw dst src, dst.length < src.length →
      linux_memcpy hw dst src = sw_memcpy dst src) ∧
    (∀ hw a b, a.length ≠ b.length → linux_memcmp hw a b = sw_memcmp a b) := by
  refine ⟨?_, ?_, rfl, ?_, ?_, ?_, ?_⟩
  · intro data seed
    unfold sw_crc32
    by_cases he : data.isEmpty
    · rw [if_pos he]; exact ⟨seed, rfl⟩
    · rw [if_neg he]; exact ⟨crc32_update seed data, rfl⟩
  · intro dst p
    unfold sw_memset
    by_cases he : dst.isEmpty
    · rw [if_pos he]; exact ⟨dst, rfl⟩
    · rw [if_neg he]
      exact ⟨_, rfl⟩
  · intro dst src e h
    unfold sw_memcpy at h
    by_cases hlt : dst.length < src.length
    · rw [if_pos hlt] at h
      cases h
      exact ⟨rfl, hlt⟩
    · rw [if_neg hlt] at h
      by_cases he : src.isEmpty
      · rw [if_pos he] at h; cases h
      · rw [if_neg he] at h; cases h
  · intro a b e h
    unfold sw_memcmp at h
    by_cases hne : a.length ≠ b.length
    · rw [if_pos hne] at h
      cases h
      exact ⟨rfl, hne⟩
    · rw [if_neg hne] at h; cases h
  · intro hw dst src hlt
    unfold linux_memcpy sw_memcpy
    rw [if_pos hlt, if_pos hlt]
  · intro hw a b hne
    unfold linux_memcmp sw_memcmp
    rw [if_pos hne, if_pos hne]

/-- Witness for C6: the only software memcpy error at `dst = [9]`,
`src = [1, 2]` is the size mismatch shared with the hardware path. -/
theorem software_engine_error_range_witness :
    (DsaError.BufferSizeMismatch 2 1 = DsaError.BufferSizeMismatch 2 1 ∧
      (1 : Nat) < 2) ∧
    linux_memcpy (Except.ok [0]) [9] [1, 2] = sw_memcpy [9] [1, 2] := by
  constructor
  · exact software_engine_error_range.2.2.2.1 [9] [1, 2]
      (DsaError.BufferSizeMismatch 2 1) rfl
  · exact software_engine_error_range.2.2.2.2.2.1 (Except.ok [0]) [9] [1, 2]
      (by decide)

/-- The retry loop accepts exactly when some attempt within the fuel
budget is accepted by the device. -/
theorem enqGo_true_iff (device : Nat → DsaHwDesc → Bool) (desc : DsaHwDesc)
    (fuel : Nat) :
    ∀ start, (enqGo device desc fuel start = true ↔
      ∃ i, start ≤ i ∧ i < start + fuel ∧ device i desc = true) := by
  induction fuel with
  | zero =>
      intro start
      simp only [enqGo]
      constructor
      · intro h; cases h
      · rintro ⟨i, h1, h2, _⟩; omega
  | succ f ih =>
      intro start
      simp only [enqGo]
      by_cases hd : device start desc = true
      · simp only [hd, if_true, true_iff]
        exact ⟨start, Nat.le_refl _, by omega, hd⟩
      · rw [if_neg (by simpa using hd), ih (start + 1)]
        constructor
        · rintro ⟨i, h1, h2, h3⟩
          exact ⟨i, by omega, by omega, h3⟩
        · rintro ⟨i, h1, h2, h3⟩
          refine ⟨i, ?_, by omega, h3⟩
          rcases Nat.eq_or_lt_of_le h1 with heq | hlt
          · exact absurd (heq ▸ h3) hd
          · omega

/-- Claim C7: the bounded-retry submission wrapper resubmits the same
descriptor `desc` on every attempt; it succeeds exactly when one of the
`max_retries` attempts is accepted, the shared-queue submit reports
`QueueFull` exactly when every attempt within the budget is rejected,
and a single accepted attempt within the budget makes the submission
succeed. -/
theorem enqcmd_retry_bounded (device : Nat → DsaHwDesc → Bool)
    (desc : DsaHwDesc) (max_retries : Nat) :
    (enqcmd_retry device desc max_retries = true ↔
      ∃ i, i < max_retries ∧ device i desc = true) ∧
    (wq_submit WorkQueueType.Shared device desc max_retries =
        Except.error DsaError.QueueFull ↔
      ∀ i, i < max_retries → device i desc = false) ∧
    (∀ j, j < max_retries → device j desc = true →
      wq_submit WorkQueueType.Shared device desc max_retries = Except.ok ()) := by
  have hiff : enqcmd_retry device desc max_retries = true ↔
      ∃ i, i < max_retries ∧ device i desc = true := by
    unfold enqcmd_retry
    rw [enqGo_true_iff device desc max_retries 0]
    constructor
    · rintro ⟨i, _, h2, h3⟩; exact ⟨i, by omega, h3⟩
    · rintro ⟨i, h1, h2⟩; exact ⟨i, Nat.zero_le _, by omega, h2⟩
  refine ⟨hiff, ?_, ?_⟩
  · unfold wq_submit
    by_cases hq : enqcmd_retry device desc max_retries = true
    · rw [if_pos hq]
      simp only [reduceCtorEq, false_iff, not_forall]
      rcases hiff.mp hq with ⟨i, h1, h2⟩
      exact ⟨i, h1, by simp [h2]⟩
    · rw [if_neg hq]
      simp only [true_iff]
      intro i hi
      by_contra hcon
      exact hq (hiff.mpr ⟨i, hi, by simpa using hcon⟩)
  · intro j hj hacc
    unfold wq_submit
    rw [if_pos (hiff.mpr ⟨j, hj, hacc⟩)]

/-- Witness for C7: a device that accepts only the second attempt makes
a three-retry shared submission succeed. -/
theorem enqcmd_retry_bounded_witness :
    wq_submit WorkQueueType.Shared (fun i _ => decide (i = 1))
      (DsaHwDesc.mk 0 0 0 0 0 0 0 0 0) 3 = Except.ok () := by
  have h := enqcmd_retry_bounded (fun i _ => decide (i = 1))
    (DsaHwDesc.mk 0 0 0 0 0 0 0 0 0) 3
  exact h.2.2 1 (by omega) (by decide)

/-- If every record observed within the fuel budget still has a zero
status byte, the poll loop exhausts and reports the generic failure with
zeroed fields. -/
theorem waitGo_timeout (obs : Nat → DsaCompletionRecord) (fuel : Nat) :
    ∀ start, (∀ i, start ≤ i → i < start + fuel → (obs i).status = 0) →
      waitGo obs fuel start = Except.error (DsaError.OperationFailed 0 0) := by
  induction fuel with
  | zero => intro start _; rfl
  | succ f ih =>
      intro start h
      have h0 : (obs start).status = 0 := h start (Nat.le_refl _) (by omega)
      simp only [waitGo, h0, ne_eq, not_true_eq_false, if_false]
      exact ih (start + 1) (fun i h1 h2 => h i (by omega) (by omega))

/-- The poll loop returns the classification of the first record whose
status byte is nonzero. -/
theorem waitGo_first (obs : Nat → DsaCompletionRecord) (fuel : Nat) :
    ∀ start j, start ≤ j → j < start + fuel →
      (∀ i, start ≤ i → i < j → (obs i).status = 0) →
      (obs j).status ≠ 0 →
      waitGo obs fuel start = classifyRecord (obs j) := by
  induction fuel with
  | zero => intro start j h1 h2 _ _; omega
  | succ f ih =>
      intro start j h1 h2 hz hnz
      by_cases hs : start = j
      · subst hs
        simp only [waitGo, ne_eq, hnz, not_false_eq_true, if_true]
      · have h0 : (obs start).status = 0 := hz start (Nat.le_refl _) (by omega)
        simp only [waitGo, h0, ne_eq, not_true_eq_false, if_false]
        exact ih (start + 1) j (by omega) (by omega)
          (fun i hi1 hi2 => hz i (by omega) hi2) hnz

/-- The poll loop only reads the records of the iterations within its
fuel budget. -/
theorem waitGo_congr (obs obs2 : Nat → DsaCompletionRecord) (fuel : Nat) :
    ∀ start, (∀ i, start ≤ i → i < start + fuel → obs i = obs2 i) →
      waitGo obs fuel start = waitGo obs2 fuel start := by
  induction fuel with
  | zero => intro start _; rfl
  | succ f ih =>
      intro start h
      have h0 : obs start = obs2 start := h start (Nat.le_refl _) (by omega)
      simp only [waitGo, h0]
      by_cases hs : (obs2 start).status ≠ 0
      · rw [if_pos hs, if_pos hs]
      · rw [if_neg hs, if_neg hs]
        exact ih (start + 1) (fun i h1 h2 => h i (by omega) (by omega))

/-- On a nonzero status byte the classification is: 0x01 success, 0x03
page fault with the record's fault address and completed byte count, and
anything else the generic failure carrying the raw status and result
bytes. -/
theorem classifyRecord_eq (r : DsaCompletionRecord) (h : r.status ≠ 0) :
    classifyRecord r =
      (if r.status = 1 then Except.ok ()
       else if r.status = 3 then
         Except.error (DsaError.PageFault r.fault_addr r.bytes_completed)
       else Except.error (DsaError.OperationFailed r.status r.result)) := by
  unfold classifyRecord CompletionStatus.ofByte
  split_ifs <;> simp_all

/-- Claim C5: the completion waiter polls the status byte for at most
`spin_iterations` iterations (its result depends only on the records
observed within that budget) and classifies the terminal state: status
0x01 returns success, status 0x03 returns `PageFault` with the fault
address and completed byte count taken from the record, any other
nonzero status returns `OperationFailed` with the raw status and result
bytes, and an exhausted loop with the byte still zero returns
`OperationFailed {status: 0, result: 0}`. -/
theorem wait_for_completion_classifies (spin_iterations : Nat)
    (obs : Nat → DsaCompletionRecord) :
    ((∀ i, i < spin_iterations → (obs i).status = 0) →
      wait_for_completion obs spin_iterations =
        Except.error (DsaError.OperationFailed 0 0)) ∧
    (∀ j, j < spin_iterations → (∀ i, i < j → (obs i).status = 0) →
      (obs j).status ≠ 0 →
      wait_for_completion obs spin_iterations =
        (if (obs j).status = 1 then Except.ok ()
         else if (obs j).status = 3 then
           Except.error
             (DsaError.PageFault (obs j).fault_addr (obs j).bytes_completed)
         else
           Except.error
             (DsaError.OperationFailed (obs j).status (obs j).result))) ∧
    (∀ obs2 : Nat → DsaCompletionRecord,
      (∀ i, i < spin_iterations → obs i = obs2 i) →
      wait_for_completion obs spin_iterations =
        wait_for_completion obs2 spin_iterations) := by
  refine ⟨?_, ?_, ?_⟩
  · intro h
    exact waitGo_timeout obs spin_iterations 0 (fun i _ h2 => h i (by omega))
  · intro j hj hz hnz
    rw [wait_for_completion,
      waitGo_first obs spin_iterations 0 j (Nat.zero_le _) (by omega)
        (fun i _ h2 => hz i h2) hnz]
    exact classifyRecord_eq (obs j) hnz
  · intro obs2 h
    exact waitGo_congr obs obs2 spin_iterations 0 (fun i _ h2 => h i (by omega))

/-- Witness for C5: a record that stays pending for two polls and then
reports status 0x03 yields the page-fault error with the record's fault
address 4096 and 7 completed bytes, under a five-iteration budget. -/
theorem wait_for_completion_classifies_witness :
    wait_for_completion
      (fun i => if i < 2 then DsaCompletionRecord.mk 0 0 0 0 0 0 0
                else DsaCompletionRecord.mk 3 0 0 7 4096 0 0) 5 =
      Except.error (DsaError.PageFault 4096 7) := by
  have h := (wait_for_completion_classifies 5
    (fun i => if i < 2 then DsaCompletionRecord.mk 0 0 0 0 0 0 0
              else DsaCompletionRecord.mk 3 0 0 7 4096 0 0)).2.1 2
    (by omega) (by decide) (by decide)
  simpa using h

/-- The chunked fill (full 8-byte chunks plus remainder) equals the
pattern repeated and truncated to `n` bytes. -/
theorem memset_chunks_eq_take (pb : List Nat) (hpb : pb.length = 8) (n : Nat) :
    (List.replicate (n / 8) pb).flatten ++ pb.take (n % 8) =
      ((List.replicate ((n + 7) / 8) pb).flatten).take n := by
  have hA : ((List.replicate (n / 8) pb).flatten).length = n / 8 * 8 := by
    rw [flatten_replicate_length, hpb]
  by_cases hr : n % 8 = 0
  · have hdiv : (n + 7) / 8 = n / 8 := by omega
    rw [hdiv, hr, List.take_zero, List.append_nil]
    rw [List.take_of_length_le (by omega)]
  · have hdiv : (n + 7) / 8 = n / 8 + 1 := by omega
    have hAle : ((List.replicate (n / 8) pb).flatten).length ≤ n := by omega
    rw [hdiv, List.replicate_succ', List.flatten_append]
    simp only [List.flatten_cons, List.flatten_nil, List.append_nil]
    rw [List.take_append_eq_append_take, List.take_of_length_le hAle, hA]
    congr 2
    omega

/-- Claim C3: for every buffer and 64-bit pattern, the software memset
rewrites the buffer to the little-endian byte representation of the
pattern repeated to the buffer's length and truncated on the final
partial repetition (empty buffer: no-op success); in particular a
16-byte fill with 0xDEADBEEFCAFEBABE starts with the bytes
[0xBE, 0xBA, 0xFE, 0xCA, 0xEF, 0xBE, 0xAD, 0xDE]. -/
theorem memset_fill_pattern (dst : List Nat) (p : Nat) :
    sw_memset dst p = Except.ok (fillSpec dst.length p) ∧
    List.take 8 (fillSpec 16 0xDEADBEEFCAFEBABE) =
      [0xBE, 0xBA, 0xFE, 0xCA, 0xEF, 0xBE, 0xAD, 0xDE] := by
  refine ⟨?_, by decide⟩
  unfold sw_memset fillSpec
  by_cases he : dst.isEmpty
  · rw [if_pos he]
    rw [List.isEmpty_iff] at he
    subst he
    rfl
  · rw [if_neg he]
    rw [memset_chunks_eq_take (u64ToLeBytes p) rfl dst.length]
